import Mathlib

/-!
# Verification of the Ax benchmarking core

Shallow embedding of the benchmarking subsystem of the Ax repository:
the asynchronous backend simulator, the benchmark method and problem
configuration (from `ax/benchmark/benchmark_method.py` and
`ax/benchmark/benchmark_problem.py`), the random model bridge
(`ax/modelbridge/random.py`), and spec-modelled components whose source
is not in the repository snapshot (backend simulator, early-stopping
strategy, benchmark result and aggregation).
-/

namespace AxBench

/-! ## Backend simulator (spec §4.1, §8 Scenarios A/B)

Modelled from the spec: the source file implementing `BackendSimulator`
(`ax/utils/testing/backend_simulator.py`) is not part of the snapshot;
only its tests (`ax/benchmark/tests/test_benchmark.py`) are. The model
follows §4.1 (run_trial / update / state contract) together with the §9
design note that a trial never completes in the same virtual tick in
which it started (trials completing after 0 units behave like trials
completing after 1 unit). -/

/-- A trial that has been registered but not yet promoted to running. -/
structure QueuedTrial where
  trialIndex : Nat
  simRuntime : Nat
  simQueuedTime : Nat
deriving DecidableEq, Repr

/-- A trial currently in the running set; its start time is assigned. -/
structure RunningTrial where
  trialIndex : Nat
  simRuntime : Nat
  simQueuedTime : Nat
  simStartTime : Nat
deriving DecidableEq, Repr

/-- A finished trial's full timing record (spec §3 `SimTrial`). -/
structure SimTrial where
  trialIndex : Nat
  simRuntime : Nat
  simQueuedTime : Nat
  simStartTime : Nat
  simCompletedTime : Nat
deriving DecidableEq, Repr

/-- The simulator's clock and trial-state ledger (spec §3
`BackendSimulator (state)`). -/
structure BackendSimulator where
  maxPendingTrials : Nat
  time : Nat
  queued : List QueuedTrial
  running : List RunningTrial
  completed : List SimTrial
  earlyStopped : List SimTrial
deriving DecidableEq, Repr

namespace BackendSimulator

/-- A fresh simulator with the given concurrency cap. -/
def init (cap : Nat) : BackendSimulator :=
  { maxPendingTrials := cap, time := 0, queued := [], running := [],
    completed := [], earlyStopped := [] }

/-- Whether a trial index is already registered in any state set. -/
def registered (s : BackendSimulator) (i : Nat) : Bool :=
  s.queued.any (fun q => q.trialIndex == i) ||
  s.running.any (fun r => r.trialIndex == i) ||
  s.completed.any (fun c => c.trialIndex == i) ||
  s.earlyStopped.any (fun c => c.trialIndex == i)

/-- `run_trial`: registers a new trial in the queued state; fails if the
index is already registered (spec §4.1). -/
def runTrial (s : BackendSimulator) (i runtime queuedTime : Nat) :
    Option BackendSimulator :=
  if s.registered i then none
  else some { s with queued := s.queued ++ [⟨i, runtime, queuedTime⟩] }

/-- `update`: advances the clock to `now`, moves due running trials to
completed (with `sim_completed_time = start + runtime`), then promotes
queued trials FIFO while the running set is below capacity, assigning
`sim_start_time = max (current time) queued_time` (spec §4.1). A running
trial is due once `start + runtime ≤ now` and at least one tick has
passed since it started (`start < now`): per the §9 note, a trial never
completes in the tick in which it was promoted. -/
def update (s : BackendSimulator) (now : Nat) : BackendSimulator :=
  let t := max s.time now
  let isDue := fun (r : RunningTrial) =>
    r.simStartTime < t && r.simStartTime + r.simRuntime ≤ t
  let newlyDone := s.running.filter isDue
  let stillRunning := s.running.filter (fun r => !(isDue r))
  let completed := s.completed ++ newlyDone.map (fun r =>
    ⟨r.trialIndex, r.simRuntime, r.simQueuedTime, r.simStartTime,
     r.simStartTime + r.simRuntime⟩)
  let free := s.maxPendingTrials - stillRunning.length
  let promoted := (s.queued.take free).map (fun q =>
    ⟨q.trialIndex, q.simRuntime, q.simQueuedTime, max t q.simQueuedTime⟩)
  { s with
    time := t
    queued := s.queued.drop free
    running := stillRunning ++ promoted
    completed := completed }

/-- `get_sim_trial_by_index` restricted to completed trials. -/
def getCompletedByIndex (s : BackendSimulator) (i : Nat) : Option SimTrial :=
  s.completed.find? (fun c => c.trialIndex == i)

end BackendSimulator

/-! ## Generation/scheduling loop over the simulator (spec §4.3, §5)

Modelled from the spec: the scheduling loop (Ax `Scheduler` driven by
`benchmark_replication`) is not in the snapshot. Per §4.3/§5, with
polling cadence 0 the loop, at each virtual tick, polls the simulator
(one `update`), then generates and deploys new trials one at a time
while capacity is available, each deployment immediately followed by a
poll at the same tick; the clock then advances by one unit. -/

/-- Deploy up to `k` more trials at tick `t`, one per generation call,
while the running set is below capacity. `nextIndex` is the index of the
next trial to generate; the runtime of trial `i` is `runtimeOf i`. -/
def genFill (runtimeOf : Nat → Nat) (t : Nat) :
    Nat → BackendSimulator → Nat → BackendSimulator × Nat
  | 0, s, nextIndex => (s, nextIndex)
  | k + 1, s, nextIndex =>
    if s.running.length < s.maxPendingTrials then
      match s.runTrial nextIndex (runtimeOf nextIndex) t with
      | none => (s, nextIndex)
      | some s1 => genFill runtimeOf t k (s1.update t) (nextIndex + 1)
    else (s, nextIndex)

/-- The replication loop: at each tick, poll (update), then fill free
capacity with newly generated trials; stop once `numTrials` trials have
completed. `fuel` bounds the number of ticks. -/
def runLoop (runtimeOf : Nat → Nat) (numTrials : Nat) :
    Nat → BackendSimulator → Nat → Nat → BackendSimulator
  | 0, s, _, _ => s
  | fuel + 1, s, nextIndex, t =>
    if s.completed.length == numTrials then s
    else
      let su := s.update t
      let (s1, n1) := genFill runtimeOf t (numTrials - nextIndex) su nextIndex
      runLoop runtimeOf numTrials fuel s1 n1 (t + 1)

/-- Run a whole scenario: `numTrials` trials, concurrency cap `cap`,
per-trial virtual runtime `runtimeOf`. -/
def runScenario (cap numTrials : Nat) (runtimeOf : Nat → Nat)
    (fuel : Nat) : BackendSimulator :=
  runLoop runtimeOf numTrials fuel (BackendSimulator.init cap) 0 0

/-- The start times of trials `0, ..., n-1` recorded by the simulator. -/
def startTimes (s : BackendSimulator) (n : Nat) : List (Option Nat) :=
  (List.range n).map (fun i => (s.getCompletedByIndex i).map
    (fun c => c.simStartTime))

/-- Scenario A of the spec: runtime of trial `i` is `i * 3`. -/
def scenarioA : BackendSimulator := runScenario 2 4 (fun i => i * 3) 20

/-- Scenario B of the spec: every trial has runtime 0. -/
def scenarioB : BackendSimulator := runScenario 2 4 (fun _ => 0) 20

/-! ## Threshold early stopping (spec §4.3, §6, Scenario C)

Modelled from the spec: `ThresholdEarlyStoppingStrategy`
(`ax/early_stopping/strategies/threshold.py`) is not in the snapshot.
Per §4.3/§6 a trial is flagged for stopping when its observed map-metric
value exceeds the threshold, but only once its observed progression has
reached `min_progression`. -/

/-- Whether the threshold strategy flags a trial whose observed value is
`value` when its progression has reached `progression`. -/
def thresholdShouldStop (metricThreshold : ℚ) (minProgression : Nat)
    (value : ℚ) (progression : Nat) : Bool :=
  decide (minProgression ≤ progression) && decide (metricThreshold < value)

/-- The first progression step at which the strategy stops a trial whose
observed value is constantly `value`, polling at progressions
`0, 1, ..., fullProgression - 1` (the trial's natural progression
length); `none` if the trial is never stopped. -/
def firstStopProgression (metricThreshold : ℚ) (minProgression : Nat)
    (value : ℚ) (fullProgression : Nat) : Option Nat :=
  (List.range fullProgression).find?
    (thresholdShouldStop metricThreshold minProgression value)

/-- How many map-metric points are observed for a trial: one per
progression step up to and including the stopping step, or the full
progression when the trial is never stopped. -/
def observedPoints (stop : Option Nat) (fullProgression : Nat) : Nat :=
  match stop with
  | none => fullProgression
  | some p => p + 1

/-! ## Benchmark result aggregation (spec §3, §4.5)

Modelled from the spec: `AggregatedResult` and
`benchmark_one_method_problem` (`ax/benchmark/benchmark.py` and
`ax/benchmark/benchmark_result.py`) are not in the snapshot. Per §4.5
the constituent traces are aligned to the shortest constituent length
and mean/quantile (P25/P50/P75) columns are computed per position. -/

/-- The per-replication traces an `AggregatedResult` is built from. -/
structure BenchmarkResultTraces where
  optimizationTrace : List ℚ
  scoreTrace : List ℚ

/-- `min(len(r.optimization_trace) for r in results)`; 0 for an empty
list (the aggregation is only ever applied to non-empty lists). -/
def minTraceLength (results : List BenchmarkResultTraces) : Nat :=
  match results with
  | [] => 0
  | r :: rs =>
    rs.foldl (fun m x => min m x.optimizationTrace.length)
      r.optimizationTrace.length

/-- Arithmetic mean of a list of rationals (0 for the empty list). -/
def meanOfList (xs : List ℚ) : ℚ := xs.sum / xs.length

/-- Order-statistic quantile of a list of rationals. -/
def quantileOfList (q : ℚ) (xs : List ℚ) : ℚ :=
  let sorted := xs.mergeSort (fun a b => decide (a ≤ b))
  sorted.getD (Int.toNat ⌊q * ((xs.length : ℚ) - 1)⌋) 0

/-- The values at position `j` across the constituent traces. -/
def columnValues (traces : List (List ℚ)) (j : Nat) : List ℚ :=
  traces.filterMap (fun tr => tr.get? j)

/-- A summary trace table: mean and quantile columns. -/
structure SummaryTrace where
  mean : List ℚ
  p25 : List ℚ
  p50 : List ℚ
  p75 : List ℚ

/-- Summarize constituent traces position-wise, truncated to length `m`. -/
def summarize (traces : List (List ℚ)) (m : Nat) : SummaryTrace :=
  { mean := (List.range m).map (fun j => meanOfList (columnValues traces j))
    p25 :=
      (List.range m).map (fun j => quantileOfList (1/4) (columnValues traces j))
    p50 :=
      (List.range m).map (fun j => quantileOfList (1/2) (columnValues traces j))
    p75 :=
      (List.range m).map (fun j =>
        quantileOfList (3/4) (columnValues traces j)) }

/-- Summary across the `BenchmarkResult`s of one (problem, method) pair. -/
structure AggregatedResult where
  results : List BenchmarkResultTraces
  optimizationTrace : SummaryTrace
  scoreTrace : SummaryTrace

/-- Build an `AggregatedResult`, truncating the summary tables to the
shortest constituent `optimization_trace` length. -/
def AggregatedResult.fromBenchmarkResults
    (results : List BenchmarkResultTraces) : AggregatedResult :=
  let m := minTraceLength results
  { results := results
    optimizationTrace := summarize (results.map (·.optimizationTrace)) m
    scoreTrace := summarize (results.map (·.scoreTrace)) m }

/-! ## Replication timeout (spec §4.3, §5, §7, Scenario D)

Modelled from the spec: the optimization loop of
`benchmark_replication` (`ax/benchmark/benchmark.py`) is not in the
snapshot. Wall-clock time is abstracted into a virtual elapsed-time
counter advanced by a per-trial cost; per §5 the timeout is checked at
the top of each loop iteration, and on trigger the loop exits with the
trials completed so far kept and a warning emitted (never an error). -/

/-- The outcome of one replication: the optimization trace of the trials
that completed, and whether the timeout warning was emitted. -/
structure ReplicationOutcome where
  optimizationTrace : List ℚ
  timedOutWarning : Bool
deriving DecidableEq, Repr

/-- One loop iteration per remaining trial: check the elapsed-time
budget at the top; on timeout return the partial trace with a warning,
otherwise complete the next trial (appending its observed value and
accruing its cost). `acc` holds completed values in reverse. -/
def replicationLoop (trialValue : Nat → ℚ) (trialCost budget : Nat) :
    Nat → List ℚ → Nat → Except String ReplicationOutcome
  | 0, acc, _ =>
    .ok { optimizationTrace := acc.reverse, timedOutWarning := false }
  | remaining + 1, acc, elapsed =>
    if budget ≤ elapsed then
      .ok { optimizationTrace := acc.reverse, timedOutWarning := true }
    else
      replicationLoop trialValue trialCost budget remaining
        (trialValue acc.length :: acc) (elapsed + trialCost)

/-- Run a replication of `numTrials` target trials against an
elapsed-time budget. -/
def benchmarkReplicationWithTimeout (trialValue : Nat → ℚ)
    (numTrials trialCost budget : Nat) : Except String ReplicationOutcome :=
  replicationLoop trialValue trialCost budget numTrials [] 0

/-! ## Score trace (spec §4.4)

Modelled from the spec: `compute_score_trace`
(`ax/benchmark/benchmark.py`) is not in the snapshot. Per §4.4 the
score is `100 * (optimal_value - optimization_trace) /
(optimal_value - baseline)` clipped to [0, 100]; an undefined entry
(NaN, e.g. no feasible point yet) is modelled as `none`. -/

/-- Clip a score to the interval [0, 100]. -/
def clipScore (x : ℚ) : ℚ := max 0 (min 100 x)

/-- The normalized score trace of an optimization trace whose entries
may be undefined (`none` standing for NaN). -/
def computeScoreTrace (optimalValue baselineValue : ℚ)
    (optimizationTrace : List (Option ℚ)) : List (Option ℚ) :=
  optimizationTrace.map (Option.map (fun v =>
    clipScore (100 * (optimalValue - v) / (optimalValue - baselineValue))))

/-! ## BenchmarkResult construction (spec §3, §7, P6)

Modelled from the spec: `BenchmarkResult.__post_init__`
(`ax/benchmark/benchmark_result.py`) is not in the snapshot; the error
messages follow the regexes asserted in
`test_benchmark_result_invalid_inputs`. The experiment object is
abstracted to a type parameter. -/

/-- Outcome of one replication (spec §3 `BenchmarkResult`), with its
two nullable experiment-reference fields, prior to validation. -/
structure BenchmarkResult (ε : Type) where
  name : String
  seed : Nat
  inferenceTrace : List ℚ
  oracleTrace : List ℚ
  optimizationTrace : List ℚ
  scoreTrace : List ℚ
  fitTime : ℚ
  genTime : ℚ
  experiment : Option ε
  experimentStorageId : Option String

/-- The `__post_init__` validation: both experiment references set, or
neither set, is a configuration error. -/
def BenchmarkResult.validate {ε : Type} (r : BenchmarkResult ε) :
    Except String (BenchmarkResult ε) :=
  if r.experiment.isSome && r.experimentStorageId.isSome then
    .error
      "Cannot specify both an `experiment` and an `experiment_storage_id`."
  else if r.experiment.isNone && r.experimentStorageId.isNone then
    .error "Must provide an `experiment` or `experiment_storage_id`."
  else .ok r

/-! ## Optimization configuration (from `ax/benchmark/benchmark_problem.py`
and `ax/core/optimization_config.py` as used there)

The objective of an `OptimizationConfig` is either a single `Objective`
with one metric or a `MultiObjective` with a list of objectives; a
config is multi-objective when it is a `MultiObjectiveOptimizationConfig`
(the `isinstance` check in `BenchmarkProblem.is_moo`), recorded here as
a Boolean field. Metrics are identified by name. -/

/-- The objective of an optimization config: a single metric or a
`MultiObjective` over several metrics. -/
inductive Objective where
  | single (metricName : String)
  | multi (metricNames : List String)
deriving DecidableEq, Repr

/-- The names appearing in the objective, as computed in
`BenchmarkProblem.__post_init__` (`{obj.metric.name for obj in
objective.objectives}` for a `MultiObjective`, else the single name). -/
def Objective.metricNames : Objective → List String
  | .single n => [n]
  | .multi ns => ns

/-- An optimization config: the objective, the outcome-constraint metric
names, and whether the config is a `MultiObjectiveOptimizationConfig`. -/
structure OptimizationConfig where
  objective : Objective
  outcomeConstraintNames : List String
  isMultiObjectiveConfig : Bool
deriving DecidableEq, Repr

/-! ## BenchmarkProblem validation (from
`ax/benchmark/benchmark_problem.py`, `BenchmarkProblem.__post_init__`) -/

/-- The errors raised at problem construction. -/
inductive ConfigError where
  | notImplementedError (msg : String)
  | valueError (msg : String)
deriving DecidableEq, Repr

/-- The fields of a `BenchmarkProblem` that `__post_init__` reads: the
test function is represented by its `outcome_names`. -/
structure BenchmarkProblem where
  name : String
  optimizationConfig : OptimizationConfig
  numTrials : Nat
  testFunctionOutcomeNames : List String
  optimalValue : ℚ
  reportInferenceValueAsTrace : Bool
  nBestPoints : Int
deriving DecidableEq, Repr

/-- `BenchmarkProblem.is_moo`: whether the optimization config is a
`MultiObjectiveOptimizationConfig`. -/
def BenchmarkProblem.isMoo (p : BenchmarkProblem) : Bool :=
  p.optimizationConfig.isMultiObjectiveConfig

/-- `BenchmarkProblem.__post_init__`: validates `n_best_points`, the
MOO/inference-trace combination, and that every objective and
outcome-constraint metric name is among the test function's outcome
names, in source order. (The `target_fidelity_and_task` computation at
the end of `__post_init__` touches no validated field and is omitted.) -/
def BenchmarkProblem.postInit (p : BenchmarkProblem) :
    Except ConfigError BenchmarkProblem :=
  if p.nBestPoints ≠ 1 then
    .error (.notImplementedError
      "Only `n_best_points=1` is currently supported.")
  else if p.reportInferenceValueAsTrace && p.isMoo then
    .error (.notImplementedError
      "Inference trace is not supported for MOO. Please set `report_inference_value_as_trace` to False.")
  else if p.optimizationConfig.objective.metricNames.filter
      (fun n => !(p.testFunctionOutcomeNames.contains n)) ≠ [] then
    .error (.valueError
      "The following objectives are defined on `optimization_config` but not included in `runner.test_function.outcome_names`.")
  else if p.optimizationConfig.outcomeConstraintNames.filter
      (fun n => !(p.testFunctionOutcomeNames.contains n)) ≠ [] then
    .error (.valueError
      "The following constraints are defined on `optimization_config` but not included in `runner.test_function.outcome_names`.")
  else .ok p

/-! ## BenchmarkMethod (from `ax/benchmark/benchmark_method.py`) -/

/-- `TrialType` from `ax/service/utils/scheduler_options.py`. -/
inductive TrialType where
  | trial
  | batchTrial
deriving DecidableEq, Repr

/-- The early-stopping-strategy fields `BenchmarkMethod` reads and
writes: its polling cadence. -/
structure EarlyStoppingStrategy where
  secondsBetweenPolls : ℚ
deriving DecidableEq, Repr

/-- The `SchedulerOptions` fields set by
`BenchmarkMethod.scheduler_options`. -/
structure SchedulerOptions where
  maxPendingTrials : Int
  initSecondsBetweenPolls : ℚ
  minSecondsBeforePoll : ℚ
  trialType : TrialType
  batchSize : Int
  runTrialsInBatches : Bool
  earlyStoppingStrategy : Option EarlyStoppingStrategy
deriving DecidableEq, Repr

/-- The fields of `BenchmarkMethod`; the generation strategy is
represented by its name (all `__post_init__` and `scheduler_options`
read from it). -/
structure BenchmarkMethod where
  name : String
  generationStrategyName : String
  batchSize : Int
  timeoutHours : ℚ
  distributeReplications : Bool
  useModelPredictionsForBestPoint : Bool
  runTrialsInBatches : Bool
  maxPendingTrials : Int
  earlyStoppingStrategy : Option EarlyStoppingStrategy
deriving DecidableEq, Repr

/-- `BenchmarkMethod.__post_init__`: a "DEFAULT" name is replaced by the
generation strategy's name, and an early-stopping strategy with a
positive `seconds_between_polls` is warned about (the returned Boolean)
and reset to 0. -/
def BenchmarkMethod.postInit (m : BenchmarkMethod) :
    BenchmarkMethod × Bool :=
  let m1 :=
    if m.name = "DEFAULT" then { m with name := m.generationStrategyName }
    else m
  match m1.earlyStoppingStrategy with
  | some ess =>
    if ess.secondsBetweenPolls > 0 then
      ({ m1 with earlyStoppingStrategy := some { secondsBetweenPolls := 0 } },
        true)
    else (m1, false)
  | none => (m1, false)

/-- `BenchmarkMethod.scheduler_options`: execution options derived from
the method's fields. -/
def BenchmarkMethod.schedulerOptions (m : BenchmarkMethod) :
    SchedulerOptions :=
  { maxPendingTrials := m.maxPendingTrials
    initSecondsBetweenPolls := 0
    minSecondsBeforePoll := 0
    trialType := if m.batchSize = 1 then .trial else .batchTrial
    batchSize := m.batchSize
    runTrialsInBatches := m.runTrialsInBatches
    earlyStoppingStrategy := m.earlyStoppingStrategy }

/-- `BenchmarkMethod.get_best_parameters`. The call to the external
`BestPointMixin._get_best_trial` (not part of the snapshot) is
abstracted into the argument `bestTrialResult`, its returned triple of
trial index, parameterization and prediction; parameterization and
prediction types are abstract. -/
def BenchmarkMethod.getBestParameters {π ρ : Type} (_ : BenchmarkMethod)
    (optimizationConfig : OptimizationConfig) (nPoints : Int)
    (bestTrialResult : Option (Nat × π × ρ)) :
    Except ConfigError (List π) :=
  if optimizationConfig.isMultiObjectiveConfig then
    .error (.notImplementedError
      "BenchmarkMethod.get_pareto_optimal_parameters is not currently supported for multi-objective problems.")
  else if nPoints ≠ 1 then
    .error (.notImplementedError "Currently only n_points=1 is supported.")
  else
    match bestTrialResult with
    | none => .ok []
    | some (_, params, _) => .ok [params]

/-! ## RandomModelBridge (from `ax/modelbridge/random.py`) -/

namespace RandomModelBridge

/-- `RandomModelBridge._predict`: raises unconditionally. Observation
features and data are abstract types. -/
def predict {φ δ : Type} (_ : List φ) : Except ConfigError (List δ) :=
  .error (.notImplementedError "RandomModelBridge does not support prediction.")

/-- `RandomModelBridge._cross_validate`: raises unconditionally. Search
space, observations and features are abstract types. -/
def crossValidate {σ ω φ δ : Type} (_ : σ) (_ : List ω) (_ : List φ)
    (_ : Bool := false) : Except ConfigError (List δ) :=
  .error (.notImplementedError "")

end RandomModelBridge

/-! ## Helper predicates on `Except` results -/

/-- Whether a construction succeeded. -/
def exceptOk {α β : Type} : Except α β → Bool
  | .ok _ => true
  | .error _ => false

/-- Whether a construction failed with a `NotImplementedError`. -/
def raisesNotImplemented {β : Type} : Except ConfigError β → Bool
  | .error (.notImplementedError _) => true
  | _ => false

/-- Whether a construction failed with a `ValueError`. -/
def raisesValueError {β : Type} : Except ConfigError β → Bool
  | .error (.valueError _) => true
  | _ => false

end AxBench

namespace AxBench

/-! ## Theorems -/

/-- C1: For the asynchronous backend simulator with `max_pending_trials = 2`
and deterministic FIFO promotion, running 4 trials whose runtime function is
`trial_index * 3` yields `sim_start_times` `[0, 0, 1, 3]`, with every
completed trial's `sim_completed_time` equal to its `sim_start_time` plus its
runtime, and running 4 trials that all have runtime 0 yields
`sim_start_times` `[0, 0, 1, 1]`. -/
theorem backendSimulator_scenario_start_times :
    startTimes scenarioA 4 = [some 0, some 0, some 1, some 3] ∧
    (∀ c ∈ scenarioA.completed,
      c.simCompletedTime = c.simStartTime + c.simRuntime) ∧
    scenarioA.completed.length = 4 ∧
    startTimes scenarioB 4 = [some 0, some 0, some 1, some 1] ∧
    (∀ c ∈ scenarioB.completed,
      c.simCompletedTime = c.simStartTime + c.simRuntime) ∧
    scenarioB.completed.length = 4 := by
  decide

/-- C2: With a threshold early-stopping strategy (threshold 1/2,
`min_progression` 2) applied to trials whose observed value equals their
trial index at every progression step (full progression length 5, as in the
test), trial 0 is never stopped and observes its full progression, while
every trial with index at least 1 is stopped exactly when its progression
reaches index 2, having observed 3 points (progressions 0, 1, 2). -/
theorem thresholdEarlyStopping_stops_at_min_progression (i : Nat)
    (h : 1 ≤ i) :
    firstStopProgression (1/2) 2 ((i : ℚ)) 5 = some 2 ∧
    observedPoints (firstStopProgression (1/2) 2 ((i : ℚ)) 5) 5 = 3 ∧
    firstStopProgression (1/2) 2 ((0 : ℚ)) 5 = none ∧
    observedPoints (firstStopProgression (1/2) 2 ((0 : ℚ)) 5) 5 = 5 := by
  have hq : (1/2 : ℚ) < (i : ℚ) := by
    have h1 : (1 : ℚ) ≤ (i : ℚ) := by exact_mod_cast h
    linarith
  have hd : decide ((1/2 : ℚ) < (i : ℚ)) = true := decide_eq_true hq
  have hz : decide ((1/2 : ℚ) < (0 : ℚ)) = false :=
    decide_eq_false (by norm_num)
  have hs0 : thresholdShouldStop (1/2) 2 ((i : ℚ)) 0 = false := by
    unfold thresholdShouldStop
    rw [show decide ((2 : Nat) ≤ (0 : Nat)) = false from rfl, Bool.false_and]
  have hs1 : thresholdShouldStop (1/2) 2 ((i : ℚ)) 1 = false := by
    unfold thresholdShouldStop
    rw [show decide ((2 : Nat) ≤ (1 : Nat)) = false from rfl, Bool.false_and]
  have hs2 : thresholdShouldStop (1/2) 2 ((i : ℚ)) 2 = true := by
    unfold thresholdShouldStop
    rw [show decide ((2 : Nat) ≤ (2 : Nat)) = true from rfl, Bool.true_and, hd]
  have hsz : ∀ p : Nat, thresholdShouldStop (1/2) 2 ((0 : ℚ)) p = false := by
    intro p
    unfold thresholdShouldStop
    rw [hz, Bool.and_false]
  have hstop : firstStopProgression (1/2) 2 ((i : ℚ)) 5 = some 2 := by
    show List.find? _ (List.range 5) = some 2
    rw [show List.range 5 = [0, 1, 2, 3, 4] from rfl]
    simp only [List.find?, hs0, hs1, hs2]
  have hnone : firstStopProgression (1/2) 2 ((0 : ℚ)) 5 = none := by
    show List.find? _ (List.range 5) = none
    rw [show List.range 5 = [0, 1, 2, 3, 4] from rfl]
    simp only [List.find?, hsz]
  exact ⟨hstop, by rw [hstop]; rfl, hnone, by rw [hnone]; rfl⟩

/-- Witness for C2 at trial index 3. -/
theorem thresholdEarlyStopping_stops_at_min_progression_witness :
    firstStopProgression (1/2) 2 ((3 : Nat) : ℚ) 5 = some 2 ∧
    observedPoints (firstStopProgression (1/2) 2 ((3 : Nat) : ℚ) 5) 5 = 3 ∧
    firstStopProgression (1/2) 2 ((0 : ℚ)) 5 = none ∧
    observedPoints (firstStopProgression (1/2) 2 ((0 : ℚ)) 5) 5 = 5 :=
  thresholdEarlyStopping_stops_at_min_progression 3 (by decide)

/-- A left fold of `min` over naturals is at most its initial value. -/
theorem foldlMin_le_init (l : List Nat) (a : Nat) : l.foldl min a ≤ a := by
  induction l generalizing a with
  | nil => exact Nat.le_refl a
  | cons x xs ih =>
    rw [show (x :: xs).foldl min a = xs.foldl min (min a x) from rfl]
    exact le_trans (ih (min a x)) (min_le_left a x)

/-- A left fold of `min` is at most every list element. -/
theorem foldlMin_le_mem :
    ∀ (l : List Nat) (a x : Nat), x ∈ l → l.foldl min a ≤ x
  | [], _, _, hx => absurd hx (List.not_mem_nil _)
  | y :: ys, a, x, hx => by
    rw [show (y :: ys).foldl min a = ys.foldl min (min a y) from rfl]
    rcases List.mem_cons.mp hx with h | h
    · subst h
      exact le_trans (foldlMin_le_init ys (min a x)) (min_le_right a x)
    · exact foldlMin_le_mem ys (min a y) x h

/-- A left fold of `min` is the initial value or some list element. -/
theorem foldlMin_eq_init_or_mem :
    ∀ (l : List Nat) (a : Nat), l.foldl min a = a ∨ ∃ x ∈ l, l.foldl min a = x
  | [], _ => Or.inl rfl
  | y :: ys, a => by
    rw [show (y :: ys).foldl min a = ys.foldl min (min a y) from rfl]
    rcases foldlMin_eq_init_or_mem ys (min a y) with h | ⟨x, hx, hfx⟩
    · rcases le_total a y with hay | hya
      · exact Or.inl (by rw [h, min_eq_left hay])
      · exact Or.inr ⟨y, List.mem_cons_self y ys, by rw [h, min_eq_right hya]⟩
    · exact Or.inr ⟨x, List.mem_cons_of_mem y hx, hfx⟩

/-- `minTraceLength` as a fold of `min` over the trace lengths. -/
theorem minTraceLength_eq_foldl (r0 : BenchmarkResultTraces)
    (rs : List BenchmarkResultTraces) :
    minTraceLength (r0 :: rs) =
      (rs.map (fun x => x.optimizationTrace.length)).foldl min
        r0.optimizationTrace.length := by
  rw [show minTraceLength (r0 :: rs) =
    rs.foldl (fun m x => min m x.optimizationTrace.length)
      r0.optimizationTrace.length from rfl]
  exact (List.foldl_map _ _ _ _).symm

/-- `minTraceLength` is a lower bound on every constituent length. -/
theorem minTraceLength_le {results : List BenchmarkResultTraces}
    {r : BenchmarkResultTraces} (hr : r ∈ results) :
    minTraceLength results ≤ r.optimizationTrace.length := by
  match results, hr with
  | r0 :: rs, hr =>
    rw [minTraceLength_eq_foldl]
    rcases List.mem_cons.mp hr with h | h
    · subst h
      exact foldlMin_le_init _ _
    · exact foldlMin_le_mem _ _ _ (List.mem_map_of_mem _ h)

/-- `minTraceLength` is attained by some constituent. -/
theorem minTraceLength_attained {results : List BenchmarkResultTraces}
    (h : results ≠ []) :
    ∃ r ∈ results, minTraceLength results = r.optimizationTrace.length := by
  match results, h with
  | r0 :: rs, _ =>
    rw [minTraceLength_eq_foldl]
    rcases foldlMin_eq_init_or_mem
        (rs.map (fun x => x.optimizationTrace.length))
        r0.optimizationTrace.length with h1 | ⟨x, hx, hfx⟩
    · exact ⟨r0, List.mem_cons_self _ _, h1⟩
    · rcases List.mem_map.mp hx with ⟨r, hrmem, hlen⟩
      exact ⟨r, List.mem_cons_of_mem _ hrmem, by rw [hfx, hlen]⟩

/-- C3: For every `AggregatedResult` built from a non-empty list of
`BenchmarkResult`s, the summary traces (`optimization_trace` and
`score_trace`, each with mean and P25/P50/P75 quantile columns) have length
equal to the minimum `optimization_trace` length over the constituent
results — a length no constituent exceeds from below and which some
constituent attains (so it is the minimum, never the maximum). -/
theorem aggregatedResult_summary_length
    (results : List BenchmarkResultTraces) (h : results ≠ []) :
    ((AggregatedResult.fromBenchmarkResults
        results).optimizationTrace.mean.length = minTraceLength results ∧
     (AggregatedResult.fromBenchmarkResults
        results).optimizationTrace.p25.length = minTraceLength results ∧
     (AggregatedResult.fromBenchmarkResults
        results).optimizationTrace.p50.length = minTraceLength results ∧
     (AggregatedResult.fromBenchmarkResults
        results).optimizationTrace.p75.length = minTraceLength results ∧
     (AggregatedResult.fromBenchmarkResults
        results).scoreTrace.mean.length = minTraceLength results ∧
     (AggregatedResult.fromBenchmarkResults
        results).scoreTrace.p25.length = minTraceLength results ∧
     (AggregatedResult.fromBenchmarkResults
        results).scoreTrace.p50.length = minTraceLength results ∧
     (AggregatedResult.fromBenchmarkResults
        results).scoreTrace.p75.length = minTraceLength results) ∧
    (∀ r ∈ results, minTraceLength results ≤ r.optimizationTrace.length) ∧
    (∃ r ∈ results, minTraceLength results = r.optimizationTrace.length) := by
  refine ⟨?_, fun r hr => minTraceLength_le hr, minTraceLength_attained h⟩
  simp [AggregatedResult.fromBenchmarkResults, summarize]

/-- Witness for C3 on traces of lengths [4, 4, 2]. -/
theorem aggregatedResult_summary_length_witness :
    (⟨[1, 2, 3, 4], [1, 2, 3, 4]⟩ :: [⟨[5, 6, 7, 8], [5, 6, 7, 8]⟩,
        (⟨[9, 10], [9, 10]⟩ : BenchmarkResultTraces)]) ≠ [] ∧
    (AggregatedResult.fromBenchmarkResults
      (⟨[1, 2, 3, 4], [1, 2, 3, 4]⟩ :: [⟨[5, 6, 7, 8], [5, 6, 7, 8]⟩,
        (⟨[9, 10], [9, 10]⟩ : BenchmarkResultTraces)])).optimizationTrace.mean.length
      = minTraceLength
        (⟨[1, 2, 3, 4], [1, 2, 3, 4]⟩ :: [⟨[5, 6, 7, 8], [5, 6, 7, 8]⟩,
          (⟨[9, 10], [9, 10]⟩ : BenchmarkResultTraces)]) :=
  ⟨by simp, (aggregatedResult_summary_length _ (by simp)).1.1⟩

/-- The replication loop with a virtual elapsed-time budget: whenever the
budget is exhausted before the last trial's cost accrues, the loop returns
(never raises), flags the timeout warning, and keeps the values of the
trials completed so far as a strictly shorter trace. -/
theorem replicationLoop_timeout_aux (v : Nat → ℚ) (c budget : Nat)
    (fuel : Nat) :
    ∀ (acc : List ℚ) (elapsed : Nat),
      acc = ((List.range acc.length).map v).reverse →
      0 < fuel → budget ≤ elapsed + c * (fuel - 1) →
      ∃ out, replicationLoop v c budget fuel acc elapsed = Except.ok out ∧
        out.timedOutWarning = true ∧
        out.optimizationTrace.length < acc.length + fuel ∧
        out.optimizationTrace =
          (List.range out.optimizationTrace.length).map v := by
  induction fuel with
  | zero =>
    intro acc elapsed _ h0 _
    exact absurd h0 (lt_irrefl 0)
  | succ n ih =>
    intro acc elapsed hacc _ hb
    simp only [replicationLoop]
    by_cases he : budget ≤ elapsed
    · rw [if_pos he]
      refine ⟨⟨acc.reverse, true⟩, rfl, rfl, ?_, ?_⟩
      · simp only [List.length_reverse]
        omega
      · show acc.reverse = (List.range acc.reverse.length).map v
        rw [List.length_reverse]
        nth_rewrite 1 [hacc]
        rw [List.reverse_reverse]
    · rw [if_neg he]
      have hacc' : v acc.length :: acc =
          ((List.range (v acc.length :: acc).length).map v).reverse := by
        rw [show (v acc.length :: acc).length = acc.length + 1 from rfl,
          List.range_succ, List.map_append, List.reverse_append, ← hacc]
        rfl
      match n, hb with
      | Nat.succ m, hb =>
        have hb' : budget ≤ (elapsed + c) + c * (Nat.succ m - 1) := by
          rw [show Nat.succ m - 1 = m from rfl]
          rw [show Nat.succ (Nat.succ m) - 1 = Nat.succ m from rfl,
            Nat.mul_succ] at hb
          generalize c * m = k at hb ⊢
          omega
        obtain ⟨out, hrun, hw, hlen, htr⟩ :=
          ih (v acc.length :: acc) (elapsed + c) hacc' (Nat.succ_pos m) hb'
        refine ⟨out, hrun, hw, ?_, htr⟩
        rw [List.length_cons] at hlen
        omega
      | 0, hb =>
        rw [show Nat.succ 0 - 1 = 0 from rfl, Nat.mul_zero] at hb
        exact absurd (le_trans hb (Nat.le_of_eq (Nat.add_zero elapsed))) he

/-- C4: When a replication exceeds its (virtual) wall-clock timeout budget,
`benchmark_replication` does not raise: it returns a result flagged with the
timeout warning whose optimization trace is strictly shorter than the
problem's target trial count, and the trace holds exactly the values of the
trials completed so far (kept, not discarded or padded). -/
theorem benchmarkReplication_timeout_partial (v : Nat → ℚ)
    (numTrials c budget : Nat) (h1 : 0 < numTrials)
    (h2 : budget ≤ c * (numTrials - 1)) :
    ∃ out,
      benchmarkReplicationWithTimeout v numTrials c budget = Except.ok out ∧
      out.timedOutWarning = true ∧
      out.optimizationTrace.length < numTrials ∧
      out.optimizationTrace =
        (List.range out.optimizationTrace.length).map v := by
  obtain ⟨out, hrun, hw, hlen, htr⟩ :=
    replicationLoop_timeout_aux v c budget numTrials [] 0 rfl h1
      (by simpa using h2)
  exact ⟨out, hrun, hw, by simpa using hlen, htr⟩

/-- Witness for C4: budget 3, per-trial cost 1, target 5 trials. -/
theorem benchmarkReplication_timeout_partial_witness :
    0 < 5 ∧ 3 ≤ 1 * (5 - 1) ∧
    ∃ out,
      benchmarkReplicationWithTimeout (fun n : Nat => (n : ℚ)) 5 1 3 =
        Except.ok out ∧
      out.timedOutWarning = true ∧
      out.optimizationTrace.length < 5 ∧
      out.optimizationTrace =
        (List.range out.optimizationTrace.length).map
          (fun n : Nat => (n : ℚ)) :=
  ⟨by decide, by decide,
    benchmarkReplication_timeout_partial (fun n : Nat => (n : ℚ)) 5 1 3
      (by decide) (by decide)⟩

/-- C5: every defined entry of a score trace produced by
`computeScoreTrace` lies in [0, 100]; an entry may instead be `none`
(standing for NaN) when no feasible/defined point exists yet. -/
theorem scoreTrace_entries_bounded (optimalValue baselineValue : ℚ)
    (optimizationTrace : List (Option ℚ)) (e : Option ℚ)
    (he : e ∈ computeScoreTrace optimalValue baselineValue optimizationTrace)
    (x : ℚ) (hx : e = some x) : 0 ≤ x ∧ x ≤ 100 := by
  rcases List.mem_map.mp he with ⟨a, _, hmap⟩
  subst hmap
  cases a with
  | none => cases hx
  | some v =>
    have hval : clipScore
        (100 * (optimalValue - v) / (optimalValue - baselineValue)) = x :=
      Option.some.inj hx
    subst hval
    constructor
    · exact le_max_left 0 _
    · exact max_le (by norm_num) (min_le_left 100 _)

/-- Witness for C5: optimal value 1, baseline 0, trace entry 0. -/
theorem scoreTrace_entries_bounded_witness :
    some (100 : ℚ) ∈ computeScoreTrace 1 0 [some 0] ∧
    (0 ≤ (100 : ℚ) ∧ (100 : ℚ) ≤ 100) := by
  have hmem : some (100 : ℚ) ∈ computeScoreTrace 1 0 [some 0] := by
    norm_num [computeScoreTrace, clipScore]
  exact ⟨hmem,
    scoreTrace_entries_bounded 1 0 [some 0] (some 100) hmem 100 rfl⟩

/-- C6: validating a `BenchmarkResult` with both `experiment` and
`experiment_storage_id` set raises a configuration error, and with neither
set also raises; every `BenchmarkResult` that passes validation holds
exactly one of the two. -/
theorem benchmarkResult_storage_exclusivity {ε : Type}
    (r : BenchmarkResult ε) :
    (r.experiment.isSome = true → r.experimentStorageId.isSome = true →
      r.validate = Except.error
        "Cannot specify both an `experiment` and an `experiment_storage_id`.") ∧
    (r.experiment = none → r.experimentStorageId = none →
      r.validate = Except.error
        "Must provide an `experiment` or `experiment_storage_id`.") ∧
    (∀ r', r.validate = Except.ok r' →
      ((r'.experiment.isSome = true ∧ r'.experimentStorageId = none) ∨
       (r'.experiment = none ∧ r'.experimentStorageId.isSome = true))) := by
  obtain ⟨name, seed, it, ot, opt, st, ft, gt, exp, sid⟩ := r
  cases exp <;> cases sid
  · exact ⟨fun h => Bool.noConfusion h, fun _ _ => rfl,
      fun r' h => Except.noConfusion h⟩
  · refine ⟨fun h => Bool.noConfusion h, fun _ h => Option.noConfusion h, ?_⟩
    intro r' h
    obtain rfl := Except.ok.inj h
    exact Or.inr ⟨rfl, rfl⟩
  · refine ⟨fun _ h => Bool.noConfusion h, fun h => Option.noConfusion h, ?_⟩
    intro r' h
    obtain rfl := Except.ok.inj h
    exact Or.inl ⟨rfl, rfl⟩
  · exact ⟨fun _ _ => rfl, fun h => Option.noConfusion h,
      fun r' h => Except.noConfusion h⟩

/-- Witness for C6: both references set, and neither set. -/
theorem benchmarkResult_storage_exclusivity_witness :
    ({ name := "name", seed := 0, inferenceTrace := [], oracleTrace := [],
       optimizationTrace := [], scoreTrace := [], fitTime := 0, genTime := 0,
       experiment := some 0, experimentStorageId := some "id" } :
        BenchmarkResult Nat).validate = Except.error
      "Cannot specify both an `experiment` and an `experiment_storage_id`." ∧
    ({ name := "name", seed := 0, inferenceTrace := [], oracleTrace := [],
       optimizationTrace := [], scoreTrace := [], fitTime := 0, genTime := 0,
       experiment := none, experimentStorageId := none } :
        BenchmarkResult Nat).validate = Except.error
      "Must provide an `experiment` or `experiment_storage_id`." :=
  ⟨(benchmarkResult_storage_exclusivity _).1 rfl rfl,
   (benchmarkResult_storage_exclusivity _).2.1 rfl rfl⟩

/-- The missing-names filter is empty exactly when every name is among the
outcome names. -/
theorem filter_not_contains_eq_nil_iff (l names : List String) :
    (l.filter (fun n => !(names.contains n)) = []) ↔ ∀ n ∈ l, n ∈ names := by
  rw [List.filter_eq_nil_iff]
  constructor
  · intro h n hn
    simpa [List.elem_iff] using h n hn
  · intro h n hn
    simpa [List.elem_iff] using h n hn

/-- C7: `BenchmarkProblem` construction (`__post_init__`) fails, before any
simulation starts, exactly when `n_best_points ≠ 1` (a
`NotImplementedError`), or `report_inference_value_as_trace` is combined
with a multi-objective optimization config (a `NotImplementedError`), or
some objective or outcome-constraint metric name is not among the test
function's outcome names (a `ValueError`); otherwise construction
succeeds. -/
theorem benchmarkProblem_construction_validation (p : BenchmarkProblem) :
    (exceptOk p.postInit = true ↔
      (p.nBestPoints = 1 ∧
       ¬(p.reportInferenceValueAsTrace = true ∧ p.isMoo = true) ∧
       (∀ n ∈ p.optimizationConfig.objective.metricNames,
         n ∈ p.testFunctionOutcomeNames) ∧
       (∀ n ∈ p.optimizationConfig.outcomeConstraintNames,
         n ∈ p.testFunctionOutcomeNames))) ∧
    (p.nBestPoints ≠ 1 → raisesNotImplemented p.postInit = true) ∧
    (p.nBestPoints = 1 → p.reportInferenceValueAsTrace = true →
      p.isMoo = true → raisesNotImplemented p.postInit = true) ∧
    (p.nBestPoints = 1 →
      ¬(p.reportInferenceValueAsTrace = true ∧ p.isMoo = true) →
      ¬((∀ n ∈ p.optimizationConfig.objective.metricNames,
          n ∈ p.testFunctionOutcomeNames) ∧
        (∀ n ∈ p.optimizationConfig.outcomeConstraintNames,
          n ∈ p.testFunctionOutcomeNames)) →
      raisesValueError p.postInit = true) := by
  have hobj := filter_not_contains_eq_nil_iff
    p.optimizationConfig.objective.metricNames p.testFunctionOutcomeNames
  have hcon := filter_not_contains_eq_nil_iff
    p.optimizationConfig.outcomeConstraintNames p.testFunctionOutcomeNames
  unfold BenchmarkProblem.postInit
  by_cases h1 : p.nBestPoints = 1
  case neg =>
    rw [if_pos h1]
    exact ⟨by simp [exceptOk, h1], fun _ => rfl, fun h => absurd h h1,
      fun h => absurd h h1⟩
  case pos =>
    rw [if_neg (not_not_intro h1)]
    by_cases h2 : (p.reportInferenceValueAsTrace && p.isMoo) = true
    · rw [if_pos h2]
      have hrm := Bool.and_eq_true_iff.mp h2
      exact ⟨by simp [exceptOk, hrm.1, hrm.2], fun h => absurd h1 h,
        fun _ _ _ => rfl,
        fun _ hno _ => absurd hrm hno⟩
    · rw [if_neg h2]
      by_cases h3 : p.optimizationConfig.objective.metricNames.filter
          (fun n => !(p.testFunctionOutcomeNames.contains n)) ≠ []
      · rw [if_pos h3]
        refine ⟨iff_of_false (by simp [exceptOk])
            (fun hall => h3 (hobj.mpr hall.2.2.1)),
          fun h => absurd h1 h,
          fun _ hr hm => absurd (Bool.and_eq_true_iff.mpr ⟨hr, hm⟩) h2,
          fun _ _ _ => rfl⟩
      · by_cases h4 : p.optimizationConfig.outcomeConstraintNames.filter
            (fun n => !(p.testFunctionOutcomeNames.contains n)) ≠ []
        · rw [if_neg h3, if_pos h4]
          refine ⟨iff_of_false (by simp [exceptOk])
              (fun hall => h4 (hcon.mpr hall.2.2.2)),
            fun h => absurd h1 h,
            fun _ hr hm => absurd (Bool.and_eq_true_iff.mpr ⟨hr, hm⟩) h2,
            fun _ _ _ => rfl⟩
        · rw [if_neg h3, if_neg h4]
          refine ⟨iff_of_true rfl
              ⟨h1, fun hrm => h2 (Bool.and_eq_true_iff.mpr hrm),
               hobj.mp (not_ne_iff.mp h3), hcon.mp (not_ne_iff.mp h4)⟩,
            fun h => absurd h1 h,
            fun _ hr hm => absurd (Bool.and_eq_true_iff.mpr ⟨hr, hm⟩) h2,
            fun _ _ hmiss => absurd
              ⟨hobj.mp (not_ne_iff.mp h3), hcon.mp (not_ne_iff.mp h4)⟩
              hmiss⟩

/-- Witness for C7: a problem with `n_best_points = 2` is rejected with a
`NotImplementedError`. -/
theorem benchmarkProblem_construction_validation_witness :
    ((2 : Int) ≠ 1) ∧
    raisesNotImplemented (BenchmarkProblem.postInit
      { name := "p"
        optimizationConfig :=
          { objective := Objective.single "m"
            outcomeConstraintNames := []
            isMultiObjectiveConfig := false }
        numTrials := 4
        testFunctionOutcomeNames := ["m"]
        optimalValue := 0
        reportInferenceValueAsTrace := false
        nBestPoints := 2 }) = true :=
  ⟨by decide, (benchmarkProblem_construction_validation _).2.1 (by decide)⟩

/-- C8: a `BenchmarkMethod`'s execution options are a deterministic function
of its own fields with zero polling cadence: `init_seconds_between_polls = 0`
and `min_seconds_before_poll = 0`, `max_pending_trials` equal to the
method's field, trial type `TRIAL` iff `batch_size = 1` and `BATCH_TRIAL`
otherwise; and `__post_init__` warns about a supplied early-stopping
strategy with positive `seconds_between_polls` and sets it to 0. -/
theorem benchmarkMethod_scheduler_options (m : BenchmarkMethod) :
    m.schedulerOptions.initSecondsBetweenPolls = 0 ∧
    m.schedulerOptions.minSecondsBeforePoll = 0 ∧
    m.schedulerOptions.maxPendingTrials = m.maxPendingTrials ∧
    (m.batchSize = 1 → m.schedulerOptions.trialType = TrialType.trial) ∧
    (m.batchSize ≠ 1 → m.schedulerOptions.trialType = TrialType.batchTrial) ∧
    (∀ ess, m.earlyStoppingStrategy = some ess →
      0 < ess.secondsBetweenPolls →
      (m.postInit.2 = true ∧
        m.postInit.1.earlyStoppingStrategy =
          some { secondsBetweenPolls := 0 })) := by
  refine ⟨rfl, rfl, rfl, fun h => ?_, fun h => ?_, fun ess hess hpos => ?_⟩
  · simp [BenchmarkMethod.schedulerOptions, h]
  · simp [BenchmarkMethod.schedulerOptions, h]
  · unfold BenchmarkMethod.postInit
    by_cases hname : m.name = "DEFAULT" <;> simp [hname, hess, hpos]

/-- Witness for C8 on a method whose early-stopping strategy polls every 5
seconds. -/
theorem benchmarkMethod_scheduler_options_witness :
    (0 : ℚ) < 5 ∧
    (({ name := "m"
        generationStrategyName := "gs"
        batchSize := 1
        timeoutHours := 4
        distributeReplications := false
        useModelPredictionsForBestPoint := false
        runTrialsInBatches := false
        maxPendingTrials := 2
        earlyStoppingStrategy := some { secondsBetweenPolls := 5 } } :
        BenchmarkMethod).postInit.2 = true ∧
      ({ name := "m"
         generationStrategyName := "gs"
         batchSize := 1
         timeoutHours := 4
         distributeReplications := false
         useModelPredictionsForBestPoint := false
         runTrialsInBatches := false
         maxPendingTrials := 2
         earlyStoppingStrategy := some { secondsBetweenPolls := 5 } } :
        BenchmarkMethod).postInit.1.earlyStoppingStrategy =
        some { secondsBetweenPolls := 0 }) :=
  ⟨by norm_num,
    (benchmarkMethod_scheduler_options _).2.2.2.2.2
      { secondsBetweenPolls := 5 } rfl (by norm_num)⟩

/-- C9: not-yet-supported paths raise immediately rather than silently
degrading: `BenchmarkMethod.get_best_parameters` raises
`NotImplementedError` whenever the optimization config is multi-objective or
`n_points ≠ 1`, and `RandomModelBridge` raises `NotImplementedError` on
prediction and on cross-validation, for every input. -/
theorem unsupportedPaths_raise_immediately {π ρ φ δ σ ω : Type}
    (m : BenchmarkMethod) (cfg : OptimizationConfig) (nPoints : Int)
    (bt : Option (Nat × π × ρ)) (fs : List φ) (ss : σ) (cvTrain : List ω)
    (cvTest : List φ) (upp : Bool) :
    (cfg.isMultiObjectiveConfig = true →
      raisesNotImplemented (m.getBestParameters cfg nPoints bt) = true) ∧
    (nPoints ≠ 1 →
      raisesNotImplemented (m.getBestParameters cfg nPoints bt) = true) ∧
    raisesNotImplemented (@RandomModelBridge.predict φ δ fs) = true ∧
    raisesNotImplemented
      (@RandomModelBridge.crossValidate σ ω φ δ ss cvTrain cvTest upp) =
      true := by
  refine ⟨fun hmoo => ?_, fun hn => ?_, rfl, rfl⟩
  · unfold BenchmarkMethod.getBestParameters
    rw [if_pos hmoo]
    rfl
  · unfold BenchmarkMethod.getBestParameters
    by_cases hmoo : cfg.isMultiObjectiveConfig = true
    · rw [if_pos hmoo]
      rfl
    · rw [if_neg hmoo, if_pos hn]
      rfl

/-- Witness for C9 on a multi-objective config and `n_points = 2`. -/
theorem unsupportedPaths_raise_immediately_witness :
    (({ objective := Objective.single "m"
        outcomeConstraintNames := []
        isMultiObjectiveConfig := true } :
        OptimizationConfig).isMultiObjectiveConfig = true) ∧
    ((2 : Int) ≠ 1) ∧
    raisesNotImplemented
      (BenchmarkMethod.getBestParameters
        { name := "m"
          generationStrategyName := "gs"
          batchSize := 1
          timeoutHours := 4
          distributeReplications := false
          useModelPredictionsForBestPoint := false
          runTrialsInBatches := false
          maxPendingTrials := 1
          earlyStoppingStrategy := none }
        { objective := Objective.single "m"
          outcomeConstraintNames := []
          isMultiObjectiveConfig := true }
        2 (none : Option (Nat × Nat × Nat))) = true ∧
    raisesNotImplemented
      (@RandomModelBridge.predict Nat Nat []) = true ∧
    raisesNotImplemented
      (@RandomModelBridge.crossValidate Nat Nat Nat Nat 0 [] [] false) =
      true := by
  have h := @unsupportedPaths_raise_immediately Nat Nat Nat Nat Nat Nat
    { name := "m"
      generationStrategyName := "gs"
      batchSize := 1
      timeoutHours := 4
      distributeReplications := false
      useModelPredictionsForBestPoint := false
      runTrialsInBatches := false
      maxPendingTrials := 1
      earlyStoppingStrategy := none }
    { objective := Objective.single "m"
      outcomeConstraintNames := []
      isMultiObjectiveConfig := true }
    2 none [] 0 [] [] false
  exact ⟨rfl, by decide, h.1 rfl, h.2.2.1, h.2.2.2⟩

/-- C10: in the supported single-objective, `n_points = 1` case,
`get_best_parameters` never raises: it returns a list containing exactly the
best trial's parameterization when one is found, and the empty list (not an
error) when no point is predicted to satisfy all outcome constraints. -/
theorem getBestParameters_supported_no_raise {π ρ : Type}
    (m : BenchmarkMethod) (cfg : OptimizationConfig)
    (h : cfg.isMultiObjectiveConfig = false) (bt : Option (Nat × π × ρ)) :
    (∃ ps, m.getBestParameters cfg 1 bt = Except.ok ps) ∧
    (bt = none → m.getBestParameters cfg 1 bt = Except.ok []) ∧
    (∀ t, bt = some t →
      m.getBestParameters cfg 1 bt = Except.ok [t.2.1]) := by
  unfold BenchmarkMethod.getBestParameters
  rw [if_neg (by simp [h]), if_neg (by simp)]
  cases bt with
  | none => exact ⟨⟨[], rfl⟩, fun _ => rfl, fun t ht => Option.noConfusion ht⟩
  | some t =>
    refine ⟨⟨[t.2.1], ?_⟩, fun hn => Option.noConfusion hn,
      fun t' ht' => ?_⟩
    · obtain ⟨i, prm, prd⟩ := t
      rfl
    · obtain rfl := Option.some.inj ht'
      obtain ⟨i, prm, prd⟩ := t
      rfl

/-- Witness for C10: a found best trial yields a singleton, none yields
the empty list. -/
theorem getBestParameters_supported_no_raise_witness :
    (({ objective := Objective.single "m"
        outcomeConstraintNames := []
        isMultiObjectiveConfig := false } :
        OptimizationConfig).isMultiObjectiveConfig = false) ∧
    BenchmarkMethod.getBestParameters
      { name := "m"
        generationStrategyName := "gs"
        batchSize := 1
        timeoutHours := 4
        distributeReplications := false
        useModelPredictionsForBestPoint := false
        runTrialsInBatches := false
        maxPendingTrials := 1
        earlyStoppingStrategy := none }
      { objective := Objective.single "m"
        outcomeConstraintNames := []
        isMultiObjectiveConfig := false }
      1 (some (0, 7, 1) : Option (Nat × Nat × Nat)) = Except.ok [7] ∧
    BenchmarkMethod.getBestParameters
      { name := "m"
        generationStrategyName := "gs"
        batchSize := 1
        timeoutHours := 4
        distributeReplications := false
        useModelPredictionsForBestPoint := false
        runTrialsInBatches := false
        maxPendingTrials := 1
        earlyStoppingStrategy := none }
      { objective := Objective.single "m"
        outcomeConstraintNames := []
        isMultiObjectiveConfig := false }
      1 (none : Option (Nat × Nat × Nat)) = Except.ok [] :=
  ⟨rfl,
    (getBestParameters_supported_no_raise _ _ rfl
      (some (0, 7, 1))).2.2 (0, 7, 1) rfl,
    (getBestParameters_supported_no_raise _ _ rfl
      (none : Option (Nat × Nat × Nat))).2.1 rfl⟩

end AxBench
